import Mathlib

/-!
Shallow embedding, in Lean 4, of the NebulaDiary backend
(`src/main.py`, `src/schemas.py`): a FastAPI service exposing CRUD over a
single `entry` collection in a document store, plus a `/search` proxy to
three upstream metadata providers.  Handlers are embedded as pure
functions over an explicit store state; fallible paths return an explicit
outcome type.  The store adapter functions `create_document` and
`get_documents` live in `database.py`, which is not part of the sources;
they are modelled from the specification and marked as such.
-/

namespace NebulaDiary

/-- A persisted diary entry document (collection `entry`), following
`schemas.Entry` plus the store-assigned `_id` (as a string) and the
`updated_at` stamp written by the PATCH handler. -/
structure EntryDoc where
  id          : String
  title       : String
  media_type  : String
  year        : Option Int
  image       : Option String
  external_id : Option String
  source      : Option String
  status      : String
  rating      : Option Int
  review      : Option String
  updated_at  : Option Nat
deriving Repr, DecidableEq

/-- The document store: the `entry` collection as a list of documents. -/
structure Store where
  entries : List EntryDoc
deriving Repr, DecidableEq

/-- Store operations a handler may perform, recorded as an effect trace. -/
inductive StoreOp where
  | insertOne
  | find
  | updateOne
  | deleteOne
deriving Repr, DecidableEq

/-- Outcome of a request handler: a successful JSON value, an
`HTTPException(status_code, detail)`, or an uncaught Python exception
propagating out of the handler. -/
inductive Outcome (α : Type) where
  | ok (a : α)
  | httpError (code : Nat) (detail : String)
  | raised (exc : String)
deriving Repr, DecidableEq

/-- FastAPI maps an uncaught exception to a 500 response; `HTTPException`
keeps its code; success is 200. -/
def Outcome.statusCode : Outcome α → Nat
  | .ok _ => 200
  | .httpError c _ => c
  | .raised _ => 500

/-- 5xx: server-class response codes. -/
def serverClass (c : Nat) : Prop := 500 ≤ c ∧ c ≤ 599

/-- `bson.ObjectId(s)` on a string succeeds exactly when `s` is a
24-character hexadecimal string; otherwise it raises `InvalidId`. -/
def isValidObjectId (s : String) : Bool :=
  s.length = 24 && s.data.all (fun c =>
    c.isDigit || ('a' ≤ c && c ≤ 'f') || ('A' ≤ c && c ≤ 'F'))

/-- Python `s[:n]` on a string for `n ≥ 0`: the first `n` characters. -/
def pyTakeStr (n : Nat) (s : String) : String :=
  (s.data.take n).asString

/-- Python `l[:n]` for possibly negative `n` (list slicing). -/
def pySliceTo (n : Int) (l : List α) : List α :=
  if 0 ≤ n then l.take n.toNat else l.take ((l.length : Int) + n).toNat

/-- Python `a or b` on optional integers (`None` and `0` are falsy). -/
def pyOrInt : Option Int → Option Int → Option Int
  | some y, b => if y = 0 then b else some y
  | none,   b => b

/-- Python `a or b` on optional strings (`None` and `""` are falsy). -/
def pyOrStr : Option String → Option String → Option String
  | some s, b => if s = "" then b else some s
  | none,   b => b

/-- Python `s.strip()`: remove leading and trailing whitespace. -/
def pyStrip (s : String) : String :=
  (((s.data.dropWhile Char.isWhitespace).reverse.dropWhile
      Char.isWhitespace).reverse).asString

/-- Python `str(x)` for an optional integer: `str(None) = "None"`. -/
def pyStrOfOptInt : Option Int → String
  | some n => toString n
  | none => "None"

/-! ### Request body models (pydantic) -/

/-- Raw JSON body of a PATCH request, restricted to the three fields the
`EntryUpdate` model declares; pydantic silently drops any other field. -/
structure EntryUpdateBody where
  status : Option String := none
  rating : Option Int := none
  review : Option String := none
deriving Repr, DecidableEq

/-- The allowed values of the `status` literal enumeration. -/
def validStatusLit (s : String) : Bool :=
  s = "Planned" || s = "Watching" || s = "Completed" || s = "Dropped"

/-- Pydantic validation of `EntryUpdate` (main.py lines 88-91):
`status` must be one of the four literals when present; `rating` is a
bare `Optional[int]` with NO range constraint; `review` any string.
Returns `none` when validation fails (FastAPI then answers 422). -/
def EntryUpdate.validate (b : EntryUpdateBody) : Option EntryUpdateBody :=
  match b.status with
  | some s => if validStatusLit s then some b else none
  | none => some b

/-- The `rating` constraint of `schemas.Entry` (`ge=1, le=5`), used by the
create model `EntryCreate` but absent from `EntryUpdate`. -/
def Entry.ratingValid : Option Int → Bool
  | none => true
  | some r => decide (1 ≤ r) && decide (r ≤ 5)

/-! ### Entry handlers (main.py) -/

/-- The `$set` document built by `update_entry`: the payload's non-None
fields (pydantic `model_dump(exclude_none=True)`) plus `updated_at`. -/
def applySet (p : EntryUpdateBody) (now : Nat) (e : EntryDoc) : EntryDoc :=
  { e with
    status := p.status.getD e.status
    rating := match p.rating with | some r => some r | none => e.rating
    review := match p.review with | some r => some r | none => e.review
    updated_at := some now }

/-- `update_one` on the `entry` collection: applies `f` to the first
document whose `_id` matches (ids are unique in practice). -/
def setFirst (eid : String) (f : EntryDoc → EntryDoc) :
    List EntryDoc → List EntryDoc
  | [] => []
  | e :: rest =>
    if e.id = eid then f e :: rest else e :: setFirst eid f rest

/-- `delete_one` on the `entry` collection: removes the first document
whose `_id` matches. -/
def deleteFirst (eid : String) : List EntryDoc → List EntryDoc
  | [] => []
  | e :: rest => if e.id = eid then rest else e :: deleteFirst eid rest

/-- Whether some stored document has the given id (`matched_count > 0` /
`deleted_count > 0`). -/
def hasId (s : Store) (eid : String) : Bool :=
  s.entries.any (fun e => e.id = eid)

/-- `PATCH /entries/{entry_id}` (main.py lines 111-122).  Takes the
validated payload, the current UTC time, and the store state (`none` when
`db is None`); returns the response outcome, the resulting store state,
and the trace of store operations performed. -/
def update_entry (db : Option Store) (entry_id : String)
    (payload : EntryUpdateBody) (now : Nat) :
    Outcome Bool × Option Store × List StoreOp :=
  match db with
  | none => (.httpError 500 "Database not available", none, [])
  | some store =>
    if payload.status = none ∧ payload.rating = none ∧ payload.review = none
    then
      (.ok false, some store, [])
    else if isValidObjectId entry_id then
      if hasId store entry_id then
        (.ok true,
         some ⟨setFirst entry_id (applySet payload now) store.entries⟩,
         [.updateOne])
      else
        (.httpError 404 "Entry not found", some store, [.updateOne])
    else
      (.raised "InvalidId", some store, [])

/-- `DELETE /entries/{entry_id}` (main.py lines 125-132). -/
def delete_entry (db : Option Store) (entry_id : String) :
    Outcome Bool × Option Store × List StoreOp :=
  match db with
  | none => (.httpError 500 "Database not available", none, [])
  | some store =>
    if isValidObjectId entry_id then
      if hasId store entry_id then
        (.ok true, some ⟨deleteFirst entry_id store.entries⟩, [.deleteOne])
      else
        (.httpError 404 "Entry not found", some store, [.deleteOne])
    else
      (.raised "InvalidId", some store, [])

/-- Modelled from the spec: `create_document(collection, record) -> id`
of `database.py` (not under `src/`), §4.1 of the specification: inserts
the record and returns the new id as a string; "Fails with
`StorageUnavailable` if no store connection exists."  The store-assigned
id is passed in as `newId`. -/
def create_document (db : Option Store) (newId : String) (doc : EntryDoc) :
    Outcome String × Option Store × List StoreOp :=
  match db with
  | none => (.raised "StorageUnavailable", none, [])
  | some store =>
    (.ok newId, some ⟨store.entries ++ [{ doc with id := newId }]⟩,
     [.insertOne])

/-- `POST /entries` (main.py lines 94-97): no `db is None` guard of its
own; it calls `create_document` directly. -/
def create_entry (db : Option Store) (newId : String) (payload : EntryDoc) :
    Outcome String × Option Store × List StoreOp :=
  create_document db newId payload

/-- Modelled from the spec: `get_documents(collection, filter, limit)` of
`database.py` (not under `src/`), §4.1 of the specification: "returns up
to `limit` records matching an equality filter (each filter key matched
exactly against the stored field)".  The filter may constrain
`media_type` and `status`. -/
def get_documents (store : Store)
    (fMedia fStatus : Option String) (limit : Int) : List EntryDoc :=
  pySliceTo limit (store.entries.filter (fun e =>
    (match fMedia with | some m => e.media_type = m | none => true) &&
    (match fStatus with | some st => e.status = st | none => true)))

/-- `GET /entries` (main.py lines 100-108): a filter key is added only
when the query parameter is truthy (`if media_type:`), i.e. present and
not the empty string. -/
def list_entries (store : Store)
    (media_type status : Option String) (limit : Int) : List EntryDoc :=
  let fMedia := match media_type with
    | some m => if m = "" then none else some m
    | none => none
  let fStatus := match status with
    | some st => if st = "" then none else some st
    | none => none
  get_documents store fMedia fStatus limit

/-! ### Search endpoint (main.py lines 136-187) -/

/-- The `media_type` query parameter's literal values. -/
inductive MediaType where
  | movie
  | series
  | anime
deriving Repr, DecidableEq

/-- An anime candidate from the Jikan provider, restricted to the fields
the handler reads.  Nested objects are optional layers, mirroring
`item.get("aired") or {}` / `.get("prop", {})` / `.get("from", {})`. -/
structure AiredFrom where
  year : Option Int
deriving Repr, DecidableEq

structure AiredProp where
  fromDate : Option AiredFrom
deriving Repr, DecidableEq

structure Aired where
  prop : Option AiredProp
deriving Repr, DecidableEq

structure JpgImages where
  large_image_url : Option String
  image_url : Option String
deriving Repr, DecidableEq

structure AnimeItem where
  title : Option String
  year : Option Int
  aired : Option Aired
  jpg : Option JpgImages
  mal_id : Option Int
deriving Repr, DecidableEq

/-- A show wrapper from the TVMaze provider. -/
structure SeriesShow where
  name : Option String
  premiered : Option String
  image_original : Option String
  image_medium : Option String
  sid : Option Int
deriving Repr, DecidableEq

/-- A movie result from the iTunes provider. -/
structure MovieItem where
  trackName : Option String
  releaseDate : Option String
  artworkUrl100 : Option String
  trackId : Option Int
deriving Repr, DecidableEq

/-- A year value in a normalized search result: the anime branch keeps
the provider's JSON number, the series/movie branches produce the first
four characters of a date string. -/
inductive YearVal where
  | num (n : Int)
  | str (s : String)
deriving Repr, DecidableEq

/-- The normalized search result shape appended to `results`. -/
structure SearchResult where
  title : Option String
  year : Option YearVal
  image : Option String
  external_id : String
  source : String
  media_type : String
deriving Repr, DecidableEq

/-- `(item.get("aired") or {}).get("prop", {}).get("from", {}).get("year")`. -/
def animeNestedYear (item : AnimeItem) : Option Int :=
  (((item.aired.bind (·.prop)).bind (·.fromDate)).bind (·.year))

/-- The per-item mapping of the anime branch (main.py lines 149-156). -/
def animeToResult (item : AnimeItem) : SearchResult :=
  { title := item.title
    year := (pyOrInt item.year (animeNestedYear item)).map .num
    image := pyOrStr (item.jpg.bind (·.large_image_url))
                     (item.jpg.bind (·.image_url))
    external_id := pyStrOfOptInt item.mal_id
    source := "jikan"
    media_type := "anime" }

/-- `(show.get("premiered") or "")[:4] or None` (main.py line 166):
truthiness on the premiere date, slice to 4 chars, truthiness again. -/
def premieredYear (premiered : Option String) : Option String :=
  let d := match pyOrStr premiered (some "") with
    | some s => s
    | none => ""
  if pyTakeStr 4 d = "" then none else some (pyTakeStr 4 d)

/-- The per-item mapping of the series branch (main.py lines 162-171). -/
def seriesToResult (item : SeriesShow) : SearchResult :=
  { title := item.name
    year := (premieredYear item.premiered).map .str
    image := pyOrStr item.image_original item.image_medium
    external_id := pyStrOfOptInt item.sid
    source := "tvmaze"
    media_type := "series" }

/-- The per-item mapping of the movie branch (main.py lines 177-184). -/
def movieToResult (item : MovieItem) : SearchResult :=
  { title := item.trackName
    year := (premieredYear item.releaseDate).map .str
    image := item.artworkUrl100
    external_id := pyStrOfOptInt item.trackId
    source := "itunes"
    media_type := "movie" }

/-- What a single upstream HTTP call can come back as: parsed JSON data,
or one of the exception classes the `try` block can see (non-2xx status
via `raise_for_status`, timeout, connection error, JSON decode error),
each carrying the exception's `str(e)` message. -/
inductive UpstreamOutcome (α : Type) where
  | ok (data : α)
  | httpStatusError (msg : String)
  | timeoutError (msg : String)
  | networkError (msg : String)
  | jsonError (msg : String)
deriving Repr, DecidableEq

/-- Whether the upstream call raised. -/
def UpstreamOutcome.fails : UpstreamOutcome α → Bool
  | .ok _ => false
  | _ => true

/-- `str(e)` of the raised exception (meaningless on `.ok`). -/
def UpstreamOutcome.excMsg : UpstreamOutcome α → String
  | .ok _ => ""
  | .httpStatusError m => m
  | .timeoutError m => m
  | .networkError m => m
  | .jsonError m => m

/-- The upstream world: what each provider would answer if called. -/
structure UpstreamWorld where
  jikan : UpstreamOutcome (List AnimeItem)
  tvmaze : UpstreamOutcome (List SeriesShow)
  itunes : UpstreamOutcome (List MovieItem)

/-- The body of `search`'s `try` block for a dispatched provider call:
either the mapped results (list sliced to `limit` client-side) or the
raised exception. -/
def providerBlock (call : UpstreamOutcome (List α)) (f : α → SearchResult)
    (limit : Int) : Outcome (List SearchResult) :=
  match call with
  | .ok items => .ok ((pySliceTo limit items).map f)
  | .httpStatusError m => .raised m
  | .timeoutError m => .raised m
  | .networkError m => .raised m
  | .jsonError m => .raised m

/-- `GET /search` (main.py lines 136-187): trims `q`, returns `[]` on a
falsy query, otherwise dispatches on `media_type` to exactly one
provider inside a `try` that converts any exception into
`HTTPException(502, "Search failed: " + str(e)[:120])`.  Returns the
outcome together with the list of providers actually called. -/
def search (q : String) (media_type : MediaType) (limit : Int)
    (world : UpstreamWorld) :
    Outcome (List SearchResult) × List MediaType :=
  let q := pyStrip q
  if q = "" then (.ok [], [])
  else
    let body : Outcome (List SearchResult) :=
      match media_type with
      | .anime => providerBlock world.jikan animeToResult limit
      | .series => providerBlock world.tvmaze seriesToResult limit
      | .movie => providerBlock world.itunes movieToResult limit
    let calls := [media_type]
    match body with
    | .raised e =>
      (.httpError 502 ("Search failed: " ++ pyTakeStr 120 e), calls)
    | r => (r, calls)

/-! ### Concrete fixtures -/

/-- A syntactically valid ObjectId string. -/
def oid0 : String := "0123456789abcdef01234567"

/-- A second valid ObjectId string, distinct from `oid0`. -/
def oid1 : String := "aaaaaaaaaaaaaaaaaaaaaaaa"

/-- A concrete stored entry. -/
def doc0 : EntryDoc :=
  { id := oid0, title := "Dune", media_type := "movie", year := some 2021
    image := none, external_id := none, source := none
    status := "Planned", rating := none, review := none, updated_at := none }

/-- A one-entry store. -/
def store0 : Store := ⟨[doc0]⟩

/-- Anime candidate whose top-level `year` is the (falsy) number 0 while
the nested first-aired year is 1999. -/
def animeItem0 : AnimeItem :=
  { title := some "X", year := some 0
    aired := some ⟨some ⟨some ⟨some 1999⟩⟩⟩, jpg := none, mal_id := some 5 }

/-- An upstream world where Jikan answers with `animeItem0`. -/
def world0 : UpstreamWorld :=
  { jikan := .ok [animeItem0], tvmaze := .ok [], itunes := .ok [] }

/-- An upstream world where every provider times out. -/
def worldTimeout : UpstreamWorld :=
  { jikan := .timeoutError "HTTPSConnectionPool: Read timed out."
    tvmaze := .timeoutError "HTTPSConnectionPool: Read timed out."
    itunes := .timeoutError "HTTPSConnectionPool: Read timed out." }

/-! ### Helper lemmas -/

theorem pyTakeStr_length_le (n : Nat) (s : String) :
    (pyTakeStr n s).length ≤ n := by
  show (s.data.take n).length ≤ n
  exact List.length_take_le n s.data

theorem setFirst_append (eid : String) (f : EntryDoc → EntryDoc)
    (pre post : List EntryDoc) (e : EntryDoc)
    (hpre : ∀ x ∈ pre, x.id ≠ eid) (he : e.id = eid) :
    setFirst eid f (pre ++ e :: post) = pre ++ f e :: post := by
  induction pre with
  | nil => simp [setFirst, he]
  | cons a t ih =>
    have ha : a.id ≠ eid := hpre a (by simp)
    simp only [List.cons_append, setFirst, if_neg ha]
    exact congrArg (a :: ·) (ih (fun x hx => hpre x (by simp [hx])))

theorem deleteFirst_append (eid : String)
    (pre post : List EntryDoc) (e : EntryDoc)
    (hpre : ∀ x ∈ pre, x.id ≠ eid) (he : e.id = eid) :
    deleteFirst eid (pre ++ e :: post) = pre ++ post := by
  induction pre with
  | nil => simp [deleteFirst, he]
  | cons a t ih =>
    have ha : a.id ≠ eid := hpre a (by simp)
    simp only [List.cons_append, deleteFirst, if_neg ha]
    exact congrArg (a :: ·) (ih (fun x hx => hpre x (by simp [hx])))

theorem hasId_append_cons (eid : String)
    (pre post : List EntryDoc) (e : EntryDoc) (he : e.id = eid) :
    hasId ⟨pre ++ e :: post⟩ eid = true := by
  simp [hasId]
  exact Or.inr (Or.inl he)

theorem hasId_append_none (eid : String) (pre post : List EntryDoc)
    (hpre : ∀ x ∈ pre, x.id ≠ eid) (hpost : ∀ x ∈ post, x.id ≠ eid) :
    hasId ⟨pre ++ post⟩ eid = false := by
  simp [hasId]
  exact ⟨fun x h => hpre x h, fun x h => hpost x h⟩

/-! ### Claims -/

/-- C1: the claim says a PATCH body with `rating` outside `[1,5]` is
rejected with a `ValidationError` at the validation boundary, before any
store access.  The code's `EntryUpdate` model (main.py lines 88-91)
declares `rating: Optional[int]` with no bounds — unlike `schemas.Entry`,
which enforces `ge=1, le=5` for the very same field — so a PATCH with
`rating = 7` passes validation, reaches the store, is written, and the
handler answers `{updated: true}`.  This evaluates the code at the
failing input. -/
theorem c1_rating_bound_not_enforced_on_patch :
    EntryUpdate.validate { rating := some 7 } = some { rating := some 7 } ∧
    Entry.ratingValid (some 7) = false ∧
    update_entry (some store0) oid0 { rating := some 7 } 42 =
      (.ok true,
       some ⟨[{ doc0 with rating := some 7, updated_at := some 42 }]⟩,
       [.updateOne]) := by
  refine ⟨rfl, rfl, ?_⟩
  decide

/-- C3: with the store not connected (`db is None`), each of the three
mutating handlers short-circuits with a server-class response and an
empty store-operation trace: PATCH and DELETE answer
`HTTPException(500, "Database not available")` from their explicit guard,
and POST fails inside `create_document` (modelled from the spec) with
`StorageUnavailable`, which surfaces as a 500 response. -/
theorem c3_mutations_guard_store_unavailable
    (eid newId : String) (p : EntryUpdateBody) (now : Nat) (doc : EntryDoc) :
    update_entry none eid p now =
      (.httpError 500 "Database not available", none, []) ∧
    delete_entry none eid =
      (.httpError 500 "Database not available", none, []) ∧
    create_entry none newId doc = (.raised "StorageUnavailable", none, []) ∧
    serverClass (update_entry none eid p now).1.statusCode ∧
    serverClass (delete_entry none eid).1.statusCode ∧
    serverClass (create_entry none newId doc).1.statusCode := by
  refine ⟨rfl, rfl, rfl, ?_, ?_, ?_⟩ <;>
    simp [update_entry, delete_entry, create_entry, create_document,
          Outcome.statusCode, serverClass]

/-- C5: a PATCH whose effective update is empty (no recognized field
supplied; pydantic drops unrecognized ones) answers `{updated: false}`
with no store operation and the store state unchanged. -/
theorem c5_empty_update_is_noop (store : Store) (eid : String)
    (p : EntryUpdateBody) (now : Nat)
    (hp : p.status = none ∧ p.rating = none ∧ p.review = none) :
    update_entry (some store) eid p now = (.ok false, some store, []) := by
  simp [update_entry, if_pos hp]

/-- C5 witness. -/
theorem c5_empty_update_is_noop_witness :
    update_entry (some store0) oid0 { } 7 = (.ok false, some store0, []) :=
  c5_empty_update_is_noop store0 oid0 { } 7 ⟨rfl, rfl, rfl⟩

/-- C7: a query that is empty after trimming makes `search` answer the
empty list immediately, with no provider called. -/
theorem c7_blank_query_no_upstream_call
    (q : String) (mt : MediaType) (limit : Int) (world : UpstreamWorld)
    (hq : pyStrip q = "") :
    search q mt limit world = (.ok [], []) := by
  simp [search, hq]

/-- C7 witness: a whitespace-only query. -/
theorem c7_blank_query_no_upstream_call_witness :
    search "   " MediaType.movie 10 worldTimeout = (.ok [], []) :=
  c7_blank_query_no_upstream_call "   " MediaType.movie 10 worldTimeout (by decide)

/-- C2: a PATCH on a connected store whose id matches a stored entry and
whose body supplies at least one recognized field answers
`{updated: true}` and replaces exactly that entry by its `$set` image:
`updated_at` becomes the current time, each supplied field among
status/rating/review takes the supplied value, each absent one keeps its
stored value, and every other field of the record is unchanged. -/
theorem c2_patch_updates_matching_entry
    (store : Store) (pre post : List EntryDoc) (e : EntryDoc)
    (eid : String) (p : EntryUpdateBody) (now : Nat)
    (hstore : store.entries = pre ++ e :: post)
    (hpre : ∀ x ∈ pre, x.id ≠ eid)
    (he : e.id = eid)
    (hval : isValidObjectId eid = true)
    (heff : ¬(p.status = none ∧ p.rating = none ∧ p.review = none)) :
    update_entry (some store) eid p now =
      (.ok true, some ⟨pre ++ applySet p now e :: post⟩, [.updateOne]) ∧
    (applySet p now e).updated_at = some now ∧
    (∀ s, p.status = some s → (applySet p now e).status = s) ∧
    (p.status = none → (applySet p now e).status = e.status) ∧
    (∀ r, p.rating = some r → (applySet p now e).rating = some r) ∧
    (p.rating = none → (applySet p now e).rating = e.rating) ∧
    (∀ t, p.review = some t → (applySet p now e).review = some t) ∧
    (p.review = none → (applySet p now e).review = e.review) ∧
    (applySet p now e).id = e.id ∧
    (applySet p now e).title = e.title ∧
    (applySet p now e).media_type = e.media_type ∧
    (applySet p now e).year = e.year ∧
    (applySet p now e).image = e.image ∧
    (applySet p now e).external_id = e.external_id ∧
    (applySet p now e).source = e.source := by
  obtain ⟨l⟩ := store
  have hl : l = pre ++ e :: post := hstore
  subst hl
  have hmem : hasId ⟨pre ++ e :: post⟩ eid = true :=
    hasId_append_cons eid pre post e he
  refine ⟨?_, rfl, ?_, ?_, ?_, ?_, ?_, ?_, rfl, rfl, rfl, rfl, rfl, rfl, rfl⟩
  · simp only [update_entry, if_neg heff, hval, if_true, hmem]
    rw [setFirst_append eid _ pre post e hpre he]
  · intro s hs; simp [applySet, hs]
  · intro hs; simp [applySet, hs]
  · intro r hr; simp [applySet, hr]
  · intro hr; simp [applySet, hr]
  · intro t ht; simp [applySet, ht]
  · intro ht; simp [applySet, ht]

/-- C2 witness. -/
theorem c2_patch_updates_matching_entry_witness :
    update_entry (some store0) oid0 { rating := some 3 } 7 =
      (.ok true, some ⟨[] ++ applySet { rating := some 3 } 7 doc0 :: []⟩,
       [.updateOne]) :=
  (c2_patch_updates_matching_entry store0 [] [] doc0 oid0
    { rating := some 3 } 7 rfl (by simp) rfl (by decide) (by decide)).1

/-- A failed provider call makes the `try` body raise the exception. -/
theorem providerBlock_fails {α : Type} (call : UpstreamOutcome (List α))
    (f : α → SearchResult) (limit : Int) (h : call.fails = true) :
    providerBlock call f limit = .raised call.excMsg := by
  cases call <;>
    simp [providerBlock, UpstreamOutcome.fails, UpstreamOutcome.excMsg] at h ⊢

/-- C4: for a non-blank query, any upstream failure of the dispatched
provider (non-2xx status, timeout, network error, malformed JSON) is
caught and answered as a single uniform
`HTTPException(502, "Search failed: " + str(e)[:120])` whose truncated
diagnostic is at most 120 characters; it never escapes as an uncaught
exception. -/
theorem c4_upstream_failure_uniform_502
    (q : String) (mt : MediaType) (limit : Int) (world : UpstreamWorld)
    (hq : pyStrip q ≠ "")
    (hf : (match mt with
            | .anime => world.jikan.fails
            | .series => world.tvmaze.fails
            | .movie => world.itunes.fails) = true) :
    ∃ m : String,
      (search q mt limit world).1 =
        .httpError 502 ("Search failed: " ++ m) ∧
      m.length ≤ 120 ∧
      ∀ e, (search q mt limit world).1 ≠ .raised e := by
  have hsearch : search q mt limit world =
      (.httpError 502 ("Search failed: " ++ pyTakeStr 120
        (match mt with
          | .anime => world.jikan.excMsg
          | .series => world.tvmaze.excMsg
          | .movie => world.itunes.excMsg)), [mt]) := by
    cases mt <;>
      simp only [search, if_neg hq, providerBlock_fails _ _ _ hf]
  refine ⟨_, by rw [hsearch], pyTakeStr_length_le 120 _, ?_⟩
  intro e h
  rw [hsearch] at h
  exact Outcome.noConfusion h

/-- C4 witness: a timeout on the movie provider. -/
theorem c4_upstream_failure_uniform_502_witness :
    ∃ m : String,
      (search "dune" MediaType.movie 10 worldTimeout).1 =
        .httpError 502 ("Search failed: " ++ m) ∧
      m.length ≤ 120 ∧
      ∀ e, (search "dune" MediaType.movie 10 worldTimeout).1 ≠ .raised e :=
  c4_upstream_failure_uniform_502 "dune" MediaType.movie 10 worldTimeout
    (by decide) (by decide)

/-- C6 counterexample: the claim quantifies over every PATCH with an
unknown id, but a PATCH whose body supplies no recognized field answers
`{updated: false}` — not a NotFound-class error — because the
empty-update early return (main.py line 117) precedes the store lookup. -/
theorem c6_counterexample :
    hasId store0 oid1 = false ∧
    update_entry (some store0) oid1 { } 5 = (.ok false, some store0, []) ∧
    ∀ c d, (Outcome.ok false : Outcome Bool) ≠ .httpError c d := by
  refine ⟨by decide, by decide, ?_⟩
  intro c d h
  exact Outcome.noConfusion h

/-- C6 (amended): with a connected store and a valid ObjectId matching no
stored entry, DELETE — and PATCH whenever its body supplies at least one
recognized field — answers 404 "Entry not found" and leaves the store
unchanged; a PATCH with an empty effective body instead answers
`{updated: false}`.  After a DELETE of an id stored exactly once
succeeds, a second DELETE of the same id answers 404. -/
theorem c6_unknown_id_not_found (store : Store) (eid : String)
    (p : EntryUpdateBody) (now : Nat)
    (pre post : List EntryDoc) (e : EntryDoc)
    (hval : isValidObjectId eid = true)
    (hmiss : hasId store eid = false)
    (heff : ¬(p.status = none ∧ p.rating = none ∧ p.review = none))
    (hpre : ∀ x ∈ pre, x.id ≠ eid) (he : e.id = eid)
    (hpost : ∀ x ∈ post, x.id ≠ eid) :
    update_entry (some store) eid p now =
      (.httpError 404 "Entry not found", some store, [.updateOne]) ∧
    delete_entry (some store) eid =
      (.httpError 404 "Entry not found", some store, [.deleteOne]) ∧
    delete_entry (some ⟨pre ++ e :: post⟩) eid =
      (.ok true, some ⟨pre ++ post⟩, [.deleteOne]) ∧
    delete_entry (some ⟨pre ++ post⟩) eid =
      (.httpError 404 "Entry not found", some ⟨pre ++ post⟩,
       [.deleteOne]) := by
  have hfst : hasId ⟨pre ++ e :: post⟩ eid = true :=
    hasId_append_cons eid pre post e he
  have hsnd : hasId ⟨pre ++ post⟩ eid = false :=
    hasId_append_none eid pre post hpre hpost
  refine ⟨?_, ?_, ?_, ?_⟩
  · simp only [update_entry, if_neg heff, hval, if_true, hmiss,
               Bool.false_eq_true, if_false]
  · simp only [delete_entry, hval, if_true, hmiss,
               Bool.false_eq_true, if_false]
  · simp only [delete_entry, hval, if_true, hfst,
               deleteFirst_append eid pre post e hpre he]
  · simp only [delete_entry, hval, if_true, hsnd,
               Bool.false_eq_true, if_false]

/-- C6 witness. -/
theorem c6_unknown_id_not_found_witness :
    update_entry (some store0) oid1 { status := some "Watching" } 5 =
      (.httpError 404 "Entry not found", some store0, [.updateOne]) :=
  (c6_unknown_id_not_found store0 oid1 { status := some "Watching" } 5
    [] [] { doc0 with id := oid1 } (by decide) (by decide) (by decide)
    (by simp) rfl (by simp)).1

/-- C8 counterexample: `animeItem0` HAS a top-level `year` field (the
number 0), yet the returned result carries the nested first-aired year
1999, because line 151 uses Python truthiness (`or`), not presence, and
`0` is falsy; so "year is the candidate item's own top-level year field
when present" fails at this input. -/
theorem c8_counterexample :
    animeItem0.year = some 0 ∧
    (search "naruto" MediaType.anime 10 world0).1 =
      .ok [{ title := some "X", year := some (.num 1999), image := none,
             external_id := "5", source := "jikan",
             media_type := "anime" }] ∧
    YearVal.num 1999 ≠ YearVal.num 0 := by
  decide

/-- C8 (amended): for `media_type=anime` with a successful provider
response, the results are the candidate items (sliced to `limit`) mapped
through `animeToResult`, whose `year` is the item's own top-level year
whenever that field is present with a truthy (nonzero) value, and
otherwise the year nested in the first-aired date; in particular an item
with no top-level year yields the nested first-aired year. -/
theorem c8_anime_year_truthy_fallback
    (q : String) (limit : Int) (world : UpstreamWorld)
    (items : List AnimeItem)
    (hq : pyStrip q ≠ "") (hw : world.jikan = .ok items) :
    (search q MediaType.anime limit world).1 =
      .ok ((pySliceTo limit items).map animeToResult) ∧
    (∀ item : AnimeItem, ∀ y : Int, item.year = some y → y ≠ 0 →
      (animeToResult item).year = some (.num y)) ∧
    (∀ item : AnimeItem, item.year = none ∨ item.year = some 0 →
      (animeToResult item).year = (animeNestedYear item).map .num) := by
  refine ⟨?_, ?_, ?_⟩
  · simp only [search, if_neg hq, hw, providerBlock]
  · intro item y hy hy0
    simp [animeToResult, pyOrInt, hy, hy0]
  · intro item h
    rcases h with h | h <;> simp [animeToResult, pyOrInt, h]

/-- C8 amended-claim witness. -/
theorem c8_anime_year_truthy_fallback_witness :
    (search "naruto" MediaType.anime 10 world0).1 =
      .ok ((pySliceTo 10 [animeItem0]).map animeToResult) :=
  (c8_anime_year_truthy_fallback "naruto" 10 world0 [animeItem0]
    (by decide) rfl).1

/-- C9 counterexample: the claim quantifies over every PATCH with an
invalid ObjectId string, but a PATCH whose body supplies no recognized
field returns `{updated: false}` before `ObjectId(entry_id)` is ever
evaluated (main.py line 117 precedes line 119), so "the conversion
raises" fails for that request. -/
theorem c9_counterexample :
    isValidObjectId "not-an-objectid" = false ∧
    update_entry (some store0) "not-an-objectid" { } 5 =
      (.ok false, some store0, []) ∧
    ∀ m, (Outcome.ok false : Outcome Bool) ≠ .raised m := by
  refine ⟨by decide, by decide, ?_⟩
  intro m h
  exact Outcome.noConfusion h

/-- C9 (amended): with a connected store and a syntactically invalid
ObjectId string, DELETE raises `InvalidId` before any store operation;
PATCH does the same whenever its body supplies at least one recognized
field, and otherwise answers `{updated: false}` before the conversion;
in every case the store is unchanged, no store operation occurs, and the
response is not the NotFound response. -/
theorem c9_invalid_id_raises_before_store (store : Store) (eid : String)
    (p : EntryUpdateBody) (now : Nat)
    (hinv : isValidObjectId eid = false) :
    delete_entry (some store) eid = (.raised "InvalidId", some store, []) ∧
    (¬(p.status = none ∧ p.rating = none ∧ p.review = none) →
      update_entry (some store) eid p now =
        (.raised "InvalidId", some store, [])) ∧
    ((p.status = none ∧ p.rating = none ∧ p.review = none) →
      update_entry (some store) eid p now = (.ok false, some store, [])) ∧
    (update_entry (some store) eid p now).2.1 = some store ∧
    (update_entry (some store) eid p now).2.2 = [] ∧
    (update_entry (some store) eid p now).1.statusCode ≠ 404 ∧
    (delete_entry (some store) eid).1.statusCode ≠ 404 := by
  have hdel : delete_entry (some store) eid =
      (.raised "InvalidId", some store, []) := by
    simp only [delete_entry, hinv, Bool.false_eq_true, if_false]
  by_cases hp : p.status = none ∧ p.rating = none ∧ p.review = none
  · have hupd : update_entry (some store) eid p now =
        (.ok false, some store, []) := by
      simp only [update_entry, if_pos hp]
    refine ⟨hdel, fun h => absurd hp h, fun _ => hupd, ?_, ?_, ?_, ?_⟩ <;>
      simp [hupd, hdel, Outcome.statusCode]
  · have hupd : update_entry (some store) eid p now =
        (.raised "InvalidId", some store, []) := by
      simp only [update_entry, if_neg hp, hinv, Bool.false_eq_true, if_false]
    refine ⟨hdel, fun _ => hupd, fun h => absurd h hp, ?_, ?_, ?_, ?_⟩ <;>
      simp [hupd, hdel, Outcome.statusCode]

/-- C9 amended-claim witness. -/
theorem c9_invalid_id_raises_before_store_witness :
    delete_entry (some store0) "zzz" =
      (.raised "InvalidId", some store0, []) :=
  (c9_invalid_id_raises_before_store store0 "zzz"
    { review := some "meh" } 5 (by decide)).1

/-- C10: an empty-string `media_type` or `status` query parameter is
falsy in `if media_type:` / `if status:`, so no equality filter is added
for it — `GET /entries` behaves exactly as if the parameter were absent. -/
theorem c10_empty_filter_param_ignored
    (store : Store) (media status : Option String) (limit : Int) :
    list_entries store (some "") status limit =
      list_entries store none status limit ∧
    list_entries store media (some "") limit =
      list_entries store media none limit := by
  exact ⟨rfl, rfl⟩

end NebulaDiary
